import Mathlib

/-
  Verification of the greenhouse irrigation controller (water4.ino) against
  its specification.  The embedding below translates the Operational-Mode
  body of loop() and the constants of the sketch into Lean.  C `int`
  arithmetic is modelled with Nat: every quantity involved is non-negative
  and bounded by 608_685_000 < 2^31, so 32-bit signed overflow never occurs
  in the modelled expressions.
-/

/- Constants, water4.ino lines 59-73. -/

def min_time : Nat := 5000
def max_time : Nat := 600000
def cycle_time : Nat := 3600000
def dark_thresh : Nat := 512
def led_on_pumping : Nat := 500
def led_on_idle : Nat := 10
def led_off_pumping : Nat := 1500
def led_off_idle : Nat := 2000

/-- Line 261: pump_time = min_time + ((max_time - min_time) * pump_res_val / 1023),
C integer division on non-negative operands, i.e. floor division. -/
def pumpTime (pot : Nat) : Nat :=
  min_time + (max_time - min_time) * pot / 1023

/-- Lines 110-115: light() is true when analogRead(ldr) < dark_thresh. -/
def light (ldrVal : Nat) : Bool :=
  ldrVal < dark_thresh

/-- Raw samples read during one loop pass.  primeRaw and emptyRaw are pin
levels (digitalRead results); both switches use INPUT_PULLUP and are
active-low, so false (LOW) means engaged / tank empty. -/
structure Inputs where
  pot : Nat
  ldrVal : Nat
  primeRaw : Bool
  emptyRaw : Bool
deriving DecidableEq

/-- Mutable state of the watering loop: the two booleans pump_state and
led_state (lines 80-81), the elapsed milliseconds of the two Chrono
objects (restart sets elapsed to 0; hasPassed n is elapsed >= n), and the
last values driven to the pump pin and the signal-led pin. -/
structure WState where
  pump_state : Bool
  led_state : Bool
  pump_elapsed : Nat
  led_elapsed : Nat
  pump_pin : Bool
  led_pin : Bool
deriving DecidableEq

/-- Lines 268-271: threshold for pump_chrono this pass. -/
def nextPumpEvent (inp : Inputs) (s : WState) : Nat :=
  if s.pump_state then pumpTime inp.pot else cycle_time

/-- Line 273: the guard pump_chrono.hasPassed(next_pump_event). -/
def pumpEdge (inp : Inputs) (s : WState) : Bool :=
  nextPumpEvent inp s ≤ s.pump_elapsed

/-- Lines 273-280: on a timer edge, restart the chrono, flip pump_state,
then pump_state = !digitalRead(prime_switch) or (pump_state and light()). -/
def pumpStep (inp : Inputs) (s : WState) : WState :=
  if pumpEdge inp s then
    { s with pump_elapsed := 0,
             pump_state := (!inp.primeRaw) || ((!s.pump_state) && light inp.ldrVal) }
  else s

/-- Line 284: digitalWrite(pump, pump_state), every pass. -/
def pumpWrite (s : WState) : WState :=
  { s with pump_pin := s.pump_state }

/-- Lines 292-301: LED phase duration from (pump_state, led_state). -/
def nextLedEvent (pump led : Bool) : Nat :=
  if pump then
    (if led then led_on_pumping else led_off_pumping)
  else
    (if led then led_on_idle else led_off_idle)

/-- Line 303: the guard led_chrono.hasPassed(next_led_event). -/
def ledEdge (s : WState) : Bool :=
  nextLedEvent s.pump_state s.led_state ≤ s.led_elapsed

/-- Lines 303-307: restart led_chrono, flip led_state, write !led_state. -/
def ledStep (s : WState) : WState :=
  if ledEdge s then
    let ls := !s.led_state
    { s with led_state := ls, led_elapsed := 0, led_pin := !ls }
  else s

/-- One Operational-Mode pass with water present (lines 258-307), in the
source order: pump transition, pump output write, LED transition. -/
def wateringPass (inp : Inputs) (s : WState) : WState :=
  ledStep (pumpWrite (pumpStep inp s))

/-- State right after setup(): pump_state and led_state initialised true
(lines 80-81), both chronos fresh, pump pin driven LOW and signal-led pin
driven HIGH (lines 156-157). -/
def resetState : WState :=
  { pump_state := true, led_state := true, pump_elapsed := 0, led_elapsed := 0,
    pump_pin := false, led_pin := true }

/-- One scheduled pass of a run: the samples plus how much wall time each
chrono accumulated since the previous pass. -/
structure PassInput where
  inp : Inputs
  dPump : Nat
  dLed : Nat
deriving DecidableEq

def advance (p : PassInput) (s : WState) : WState :=
  { s with pump_elapsed := s.pump_elapsed + p.dPump,
           led_elapsed := s.led_elapsed + p.dLed }

/-- Multi-pass run of the watering loop.  Line 149 attaches rst_ISR to any
CHANGE of the prime switch, so a pass whose prime reading differs from the
previous one is preceded by a full processor reset, re-entering loop()
from resetState. -/
def runR (prev : Bool) (s : WState) : List PassInput → WState
  | [] => s
  | p :: ps =>
      runR p.inp.primeRaw
        (wateringPass p.inp
          (advance p (if p.inp.primeRaw == prev then s else resetState))) ps

/-- Prime reading at the end of a pass list (the initial reading if empty). -/
def lastPrime (b : Bool) : List PassInput → Bool
  | [] => b
  | p :: ps => lastPrime p.inp.primeRaw ps

/- Tank-empty alarm loop, lines 242-249. -/

/-- Primitive hardware effects appearing in the alarm loop body. -/
inductive HWAction where
  | writeLed : Bool → HWAction
  | writePump : Bool → HWAction
  | delay : Nat → HWAction
deriving DecidableEq

/-- Lines 244-247, one iteration of the while(true) alarm loop:
digitalWrite(signal_led, LOW); delay(20); digitalWrite(signal_led, HIGH);
delay(500).  These four statements are the whole body. -/
def alarmIteration : List HWAction :=
  [HWAction.writeLed false, HWAction.delay 20,
   HWAction.writeLed true, HWAction.delay 500]

/-- Logical LED state from the pin level: the signal LED is active-low. -/
def ledLogical (pinLevel : Bool) : Bool := !pinLevel

/-- Held LED phases of an action list: for each delay, the logical LED
state held during it, paired with the duration. -/
def phases (led : Bool) : List HWAction → List (Bool × Nat)
  | [] => []
  | HWAction.writeLed l :: rest => phases (ledLogical l) rest
  | HWAction.writePump _ :: rest => phases led rest
  | HWAction.delay ms :: rest => (led, ms) :: phases led rest

/-- Does the action write the pump pin? -/
def writesPump : HWAction → Bool
  | HWAction.writePump _ => true
  | _ => false

/-- Full machine state for the alarm loop: both output pins, the two state
booleans, the restart reference instants of the two Chrono objects
(restart would overwrite them; nothing else does), and wall-clock time. -/
structure MachineState where
  pump_pin : Bool
  led_pin : Bool
  pump_state : Bool
  led_state : Bool
  pump_start : Nat
  led_start : Nat
  now : Nat
deriving DecidableEq

def hwStep (s : MachineState) : HWAction → MachineState
  | HWAction.writeLed l => { s with led_pin := l }
  | HWAction.writePump l => { s with pump_pin := l }
  | HWAction.delay ms => { s with now := s.now + ms }

def runActs (s : MachineState) (acts : List HWAction) : MachineState :=
  acts.foldl hwStep s

/-- n iterations of the alarm loop. -/
def alarmIterate (s : MachineState) : Nat → MachineState
  | 0 => s
  | Nat.succ n => alarmIterate (runActs s alarmIteration) n

/- Helper lemmas. -/

theorem ledStep_pump_state (s : WState) : (ledStep s).pump_state = s.pump_state := by
  unfold ledStep
  split
  · rfl
  · rfl

theorem ledStep_pump_pin (s : WState) : (ledStep s).pump_pin = s.pump_pin := by
  unfold ledStep
  split
  · rfl
  · rfl

theorem ledStep_pump_elapsed (s : WState) : (ledStep s).pump_elapsed = s.pump_elapsed := by
  unfold ledStep
  split
  · rfl
  · rfl

theorem wateringPass_pump_state (inp : Inputs) (s : WState) :
    (wateringPass inp s).pump_state = (pumpStep inp s).pump_state := by
  unfold wateringPass pumpWrite
  rw [ledStep_pump_state]

theorem wateringPass_pump_pin (inp : Inputs) (s : WState) :
    (wateringPass inp s).pump_pin = (pumpStep inp s).pump_state := by
  unfold wateringPass pumpWrite
  rw [ledStep_pump_pin]

theorem wateringPass_pump_elapsed (inp : Inputs) (s : WState) :
    (wateringPass inp s).pump_elapsed = (pumpStep inp s).pump_elapsed := by
  unfold wateringPass pumpWrite
  rw [ledStep_pump_elapsed]

theorem pumpStep_of_edge (inp : Inputs) (s : WState) (h : pumpEdge inp s = true) :
    (pumpStep inp s).pump_state
      = ((!inp.primeRaw) || ((!s.pump_state) && light inp.ldrVal)) := by
  unfold pumpStep
  rw [h]
  simp

theorem pumpStep_of_no_edge (inp : Inputs) (s : WState) (h : pumpEdge inp s = false) :
    pumpStep inp s = s := by
  unfold pumpStep
  rw [h]
  simp

/- Concrete sample states used by witnesses and counterexamples. -/

def sampleBrightInp : Inputs :=
  { pot := 0, ldrVal := 100, primeRaw := true, emptyRaw := true }

def samplePrimeInp : Inputs :=
  { pot := 0, ldrVal := 600, primeRaw := false, emptyRaw := true }

def sampleIdleElapsed : WState :=
  { pump_state := false, led_state := false, pump_elapsed := 3600000,
    led_elapsed := 0, pump_pin := false, led_pin := true }

def sampleIdleFresh : WState :=
  { pump_state := false, led_state := false, pump_elapsed := 100,
    led_elapsed := 0, pump_pin := false, led_pin := true }

/-- C1: in an Operational-Mode pass where the cycle timer has reached its
threshold and the prime switch is disengaged, a pass that starts idle ends
with PumpState equal to the light reading (the transition into pumping is
vetoed exactly by darkness), and a pass that starts pumping always ends
idle (a transition into idle is never vetoed by light). -/
theorem c1_idle_transition_equals_light (inp : Inputs) (s : WState)
    (hprime : inp.primeRaw = true) (hedge : pumpEdge inp s = true) :
    (s.pump_state = false → (wateringPass inp s).pump_state = light inp.ldrVal) ∧
    (s.pump_state = true → (wateringPass inp s).pump_state = false) := by
  constructor
  · intro hidle
    rw [wateringPass_pump_state, pumpStep_of_edge inp s hedge, hprime, hidle]
    simp
  · intro hpumping
    rw [wateringPass_pump_state, pumpStep_of_edge inp s hedge, hprime, hpumping]
    simp

theorem c1_witness :
    sampleBrightInp.primeRaw = true ∧ pumpEdge sampleBrightInp sampleIdleElapsed = true ∧
      (wateringPass sampleBrightInp sampleIdleElapsed).pump_state
        = light sampleBrightInp.ldrVal :=
  ⟨rfl, by decide,
   (c1_idle_transition_equals_light sampleBrightInp sampleIdleElapsed rfl (by decide)).1 rfl⟩

/-- C2: in an Operational-Mode pass where the cycle timer has reached its
threshold and the prime switch is engaged (pin reads LOW), PumpState after
the tick is true regardless of the flipped value and the light reading. -/
theorem c2_prime_forces_true (inp : Inputs) (s : WState)
    (hprime : inp.primeRaw = false) (hedge : pumpEdge inp s = true) :
    (wateringPass inp s).pump_state = true := by
  rw [wateringPass_pump_state, pumpStep_of_edge inp s hedge, hprime]
  simp

theorem c2_witness :
    samplePrimeInp.primeRaw = false ∧ pumpEdge samplePrimeInp sampleIdleElapsed = true ∧
      (wateringPass samplePrimeInp sampleIdleElapsed).pump_state = true :=
  ⟨rfl, by decide,
   c2_prime_forces_true samplePrimeInp sampleIdleElapsed rfl (by decide)⟩

/-- C9: in an Operational-Mode pass where the cycle timer has not reached
its threshold, PumpState is unchanged whatever the light reading and the
prime switch say, and the pump output written that pass equals that
unchanged PumpState. -/
theorem c9_no_edge_preserves_pump (inp : Inputs) (s : WState)
    (h : pumpEdge inp s = false) :
    (wateringPass inp s).pump_state = s.pump_state ∧
      (wateringPass inp s).pump_pin = s.pump_state := by
  constructor
  · rw [wateringPass_pump_state, pumpStep_of_no_edge inp s h]
  · rw [wateringPass_pump_pin, pumpStep_of_no_edge inp s h]

theorem c9_witness :
    pumpEdge samplePrimeInp sampleIdleFresh = false ∧
      (wateringPass samplePrimeInp sampleIdleFresh).pump_state
          = sampleIdleFresh.pump_state ∧
      (wateringPass samplePrimeInp sampleIdleFresh).pump_pin
          = sampleIdleFresh.pump_state :=
  ⟨by decide,
   (c9_no_edge_preserves_pump samplePrimeInp sampleIdleFresh (by decide)).1,
   (c9_no_edge_preserves_pump samplePrimeInp sampleIdleFresh (by decide)).2⟩

/-- C4: for every potentiometer reading r in [0,1023] the derived pump time
is 5000 + (595000 * r) / 1023 with floor division, it is monotonically
non-decreasing in r, and it takes the value 5000 at r = 0 and 600000 at
r = 1023. -/
theorem c4_pump_time_formula (r : Nat) (_hr : r ≤ 1023) :
    pumpTime r = 5000 + 595000 * r / 1023 ∧
    (∀ r2, r ≤ r2 → pumpTime r ≤ pumpTime r2) ∧
    pumpTime 0 = 5000 ∧ pumpTime 1023 = 600000 := by
  refine ⟨rfl, ?_, by decide, by decide⟩
  intro r2 h
  unfold pumpTime
  have hmul : (max_time - min_time) * r ≤ (max_time - min_time) * r2 :=
    Nat.mul_le_mul_left _ h
  exact Nat.add_le_add_left (Nat.div_le_div_right hmul) _

theorem c4_witness :
    (512 ≤ 1023) ∧ pumpTime 512 = 5000 + 595000 * 512 / 1023 :=
  ⟨by decide, (c4_pump_time_formula 512 (by decide)).1⟩

/-- C5 counterexample: the code maps the raw reading 512 to 302790 ms, not
to the 302414 ms the claim asserts. -/
theorem c5_counterexample : pumpTime 512 ≠ 302414 := by decide

/-- C5 amended: for raw reading 512 the derived pump time is exactly
5000 + (595000 * 512) / 1023 = 302790 ms (integer floor), while reading 0
gives exactly 5000 ms and reading 1023 exactly 600000 ms. -/
theorem c5_amended :
    pumpTime 0 = 5000 ∧
    pumpTime 512 = 5000 + 595000 * 512 / 1023 ∧
    pumpTime 512 = 302790 ∧
    pumpTime 1023 = 600000 := by
  refine ⟨by decide, rfl, by decide, by decide⟩

/-- C6 counterexample: the first write of the alarm iteration drives the
pin LOW, which on the active-low LED is the ON state, held for the 20 ms
delay; so the iteration does not hold the LED off for 20 ms then on for
500 ms. -/
theorem c6_counterexample :
    phases false alarmIteration ≠ [(false, 20), (true, 500)] := by decide

/-- C6 amended: each iteration of the Tank-Empty Guard inner loop holds the
active-low status LED ON for 20 ms and then OFF for 500 ms, repeating, and
the loop body performs no other work (in particular no pump write). -/
theorem c6_amended (b : Bool) :
    phases b alarmIteration = [(true, 20), (false, 500)] ∧
      alarmIteration.all (fun a => !writesPump a) = true := by
  refine ⟨?_, by decide⟩
  cases b
  · decide
  · decide

/-- Dark sample: prime disengaged, LDR reading at or above the dark
threshold. -/
def sampleDarkInp : Inputs :=
  { pot := 0, ldrVal := 600, primeRaw := true, emptyRaw := true }

/-- C7 counterexample: with PumpState idle, the cycle timer at 3600000 ms,
prime disengaged and darkness, the pass restarts the cycle timer (the edge
fires and elapsed is reset to 0) while PumpState stays false: a restart
without a toggle of PumpState. -/
theorem c7_counterexample :
    pumpEdge sampleDarkInp sampleIdleElapsed = true ∧
    sampleDarkInp.ldrVal ≥ dark_thresh ∧
    (wateringPass sampleDarkInp sampleIdleElapsed).pump_elapsed = 0 ∧
    (wateringPass sampleDarkInp sampleIdleElapsed).pump_state
        = sampleIdleElapsed.pump_state := by
  decide

/-- C7 amended: the cycle timer is restarted in a pass exactly when it has
reached the pass threshold; every change of PumpState happens in such a
pass, but a restart can occur with PumpState unchanged (a dark-vetoed or
prime-overridden edge). -/
theorem c7_amended (inp : Inputs) (s : WState) :
    ((wateringPass inp s).pump_state ≠ s.pump_state → pumpEdge inp s = true) ∧
    (pumpEdge inp s = true → (wateringPass inp s).pump_elapsed = 0) ∧
    (pumpEdge inp s = false →
      (wateringPass inp s).pump_elapsed = s.pump_elapsed ∧
      (wateringPass inp s).pump_state = s.pump_state) := by
  refine ⟨?_, ?_, ?_⟩
  · intro hne
    by_contra hno
    have hfalse : pumpEdge inp s = false := by
      cases h : pumpEdge inp s
      · rfl
      · exact absurd h hno
    rw [wateringPass_pump_state, pumpStep_of_no_edge inp s hfalse] at hne
    exact hne rfl
  · intro hedge
    rw [wateringPass_pump_elapsed]
    unfold pumpStep
    rw [hedge]
    simp
  · intro hno
    constructor
    · rw [wateringPass_pump_elapsed, pumpStep_of_no_edge inp s hno]
    · rw [wateringPass_pump_state, pumpStep_of_no_edge inp s hno]

theorem c7_witness :
    pumpEdge sampleDarkInp sampleIdleFresh = false ∧
      (wateringPass sampleDarkInp sampleIdleFresh).pump_elapsed
          = sampleIdleFresh.pump_elapsed :=
  ⟨by decide,
   ((c7_amended sampleDarkInp sampleIdleFresh).2.2 (by decide)).1⟩

/-- Sample state in the pumping phase with the LED timer exactly at its
threshold. -/
def sampleLedEdge : WState :=
  { pump_state := true, led_state := true, pump_elapsed := 0,
    led_elapsed := 500, pump_pin := true, led_pin := false }

/-- C8: the LED threshold is the pure function of (PumpState, LedState)
given by the table 500/1500/10/2000 ms, and when the LED timer has reached
the selected threshold the pass restarts the timer, flips LedState and
drives the LED pin to the logical inverse of the new LedState. -/
theorem c8_led_table_and_toggle (s : WState) (hedge : ledEdge s = true) :
    nextLedEvent true true = 500 ∧ nextLedEvent true false = 1500 ∧
    nextLedEvent false true = 10 ∧ nextLedEvent false false = 2000 ∧
    (ledStep s).led_elapsed = 0 ∧
    (ledStep s).led_state = !s.led_state ∧
    (ledStep s).led_pin = !(ledStep s).led_state := by
  refine ⟨rfl, rfl, rfl, rfl, ?_, ?_, ?_⟩ <;>
    · unfold ledStep
      rw [hedge]
      simp

theorem c8_witness :
    ledEdge sampleLedEdge = true ∧
      (ledStep sampleLedEdge).led_elapsed = 0 ∧
      (ledStep sampleLedEdge).led_state = !sampleLedEdge.led_state ∧
      (ledStep sampleLedEdge).led_pin = !(ledStep sampleLedEdge).led_state :=
  ⟨by decide,
   (c8_led_table_and_toggle sampleLedEdge (by decide)).2.2.2.2.1,
   (c8_led_table_and_toggle sampleLedEdge (by decide)).2.2.2.2.2.1,
   (c8_led_table_and_toggle sampleLedEdge (by decide)).2.2.2.2.2.2⟩

theorem runActs_alarm (s : MachineState) :
    runActs s alarmIteration
      = { s with led_pin := true, now := s.now + 20 + 500 } := rfl

/-- C10: the Tank-Empty Guard loop never writes the pump output and leaves
PumpState, LedState and the restart references of both chronos unmodified:
after any number of alarm iterations from any machine state, the pump pin
still holds the value last driven to it, and only the LED pin and the
wall clock have changed. -/
theorem c10_alarm_frame (s : MachineState) (n : Nat) :
    (alarmIterate s n).pump_pin = s.pump_pin ∧
    (alarmIterate s n).pump_state = s.pump_state ∧
    (alarmIterate s n).led_state = s.led_state ∧
    (alarmIterate s n).pump_start = s.pump_start ∧
    (alarmIterate s n).led_start = s.led_start := by
  induction n generalizing s with
  | zero => exact ⟨rfl, rfl, rfl, rfl, rfl⟩
  | succ n ih =>
      have hstep := ih (runActs s alarmIteration)
      rw [runActs_alarm] at hstep
      exact hstep

theorem advance_pump_state (p : PassInput) (s : WState) :
    (advance p s).pump_state = s.pump_state := rfl

theorem pumpStep_engaged (inp : Inputs) (s : WState)
    (hprime : inp.primeRaw = false) (hs : s.pump_state = true) :
    (pumpStep inp s).pump_state = true := by
  cases h : pumpEdge inp s
  · rw [pumpStep_of_no_edge inp s h]
    exact hs
  · rw [pumpStep_of_edge inp s h, hprime]
    rfl

theorem runR_append (xs : List PassInput) :
    ∀ (b : Bool) (s : WState) (ys : List PassInput),
      runR b s (xs ++ ys) = runR (lastPrime b xs) (runR b s xs) ys := by
  induction xs with
  | nil =>
      intro b s ys
      rfl
  | cons x xs ih =>
      intro b s ys
      simp only [List.cons_append, runR, lastPrime]
      apply ih

theorem runR_prime_invariant (ps : List PassInput) :
    ∀ (b : Bool) (s : WState),
      (b = false → s.pump_state = true) →
      lastPrime b ps = false → (runR b s ps).pump_state = true := by
  induction ps with
  | nil =>
      intro b s h hl
      exact h hl
  | cons p ps ih =>
      intro b s h hl
      simp only [runR]
      simp only [lastPrime] at hl
      apply ih
      · intro hp
        rw [wateringPass_pump_state]
        apply pumpStep_engaged _ _ hp
        rw [advance_pump_state]
        split
        · rename_i hc
          have hb : p.inp.primeRaw = b := eq_of_beq hc
          apply h
          rw [← hb]
          exact hp
        · rfl
      · exact hl

/-- C3: whenever the prime switch reads engaged the pump output written
that pass is energized, even at passes where the cycle timer has not
elapsed.  Any change of the prime reading reboots the controller through
rst_ISR (line 149), so a run is modelled with a reset before each pass
whose prime reading differs from the previous one; in every such run,
every pass whose prime reading is engaged ends with the pump pin high. -/
theorem c3_prime_engaged_pump_energized (b : Bool) (ps : List PassInput)
    (p : PassInput) (hp : p.inp.primeRaw = false) :
    (runR b resetState (ps ++ [p])).pump_pin = true := by
  rw [runR_append]
  simp only [runR]
  rw [wateringPass_pump_pin]
  apply pumpStep_engaged _ _ hp
  rw [advance_pump_state]
  split
  · rename_i hc
    have hb : p.inp.primeRaw = lastPrime b ps := eq_of_beq hc
    apply runR_prime_invariant ps b resetState
    · intro hfalse
      rfl
    · rw [← hb]
      exact hp
  · rfl

def samplePrimePass : PassInput :=
  { inp := samplePrimeInp, dPump := 0, dLed := 0 }

theorem c3_witness :
    samplePrimePass.inp.primeRaw = false ∧
      (runR true resetState ([] ++ [samplePrimePass])).pump_pin = true :=
  ⟨rfl, c3_prime_engaged_pump_energized true [] samplePrimePass rfl⟩
